import Mathlib

/-!
Verification of the batch-orchestration core of yt-audio-cli:
a shallow embedding of src/yt_audio_cli/batch/job.py, retry.py,
request.py, executor.py and src/yt_audio_cli/download/batch.py,
with theorems settling the specification claims about them.

Python floats appear only as retry delays; they are embedded as
rationals. Python str is embedded as String, str or None as
Option String, and the truthiness test `if s:` as `s ≠ ""` (resp.
matching on the Option). Python `pat in s` (substring test) is
embedded by the executable function strIn below.
-/

set_option autoImplicit false

namespace YtAudio

/-! ### String primitives of the embedding

Python string predicates are embedded as executable functions over the
character lists of the strings; the byte-position-based String functions
of the Lean core library do not reduce inside the kernel, so the
embedding works on List Char throughout. -/

/-- Python substring test `pat in hay` at a given position: does pat
start at the head of hay. -/
def startsList : List Char → List Char → Bool
  | [], _ => true
  | _ :: _, [] => false
  | a :: as, b :: bs => a = b && startsList as bs

/-- Python substring test `pat in hay` over char lists. -/
def subList (pat : List Char) : List Char → Bool
  | [] => pat.isEmpty
  | b :: bs => startsList pat (b :: bs) || subList pat bs

/-- Embedding of the Python expression `pat in hay` on strings. -/
def strIn (pat hay : String) : Bool :=
  subList pat.toList hay.toList

/-! ### job.py: JobStatus and DownloadJob -/

/-- Embedding of the JobStatus enum of batch/job.py. -/
inductive JobStatus
  | pending
  | active
  | complete
  | failed
  | cancelled
deriving DecidableEq, Repr

/-- Embedding of the DownloadJob dataclass of batch/job.py.
Paths are embedded as strings; retry_count is a Nat since it is
validated nonnegative at construction and only ever incremented. -/
structure DownloadJob where
  url : String
  output_dir : String
  format : String
  status : JobStatus
  retry_count : Nat
  error_message : Option String
  output_path : Option String
  current_percent : Int
  current_title : String
deriving DecidableEq, Repr

/-- Embedding of the Python expression `s.startswith(pre)`. -/
def strStarts (pre s : String) : Bool :=
  startsList pre.toList s.toList

/-- Embedding of DownloadJob construction (the dataclass constructor plus
post-init validation): rejects URLs that do not start with http(s), and
clamps current_percent into [0,100]. -/
def mkDownloadJob (url output_dir format : String) : Except String DownloadJob :=
  if !(strStarts "http://" url || strStarts "https://" url) then
    .error ("Invalid URL: " ++ url)
  else
    .ok { url := url, output_dir := output_dir, format := format,
          status := .pending, retry_count := 0, error_message := none,
          output_path := none, current_percent := 0, current_title := "" }

/-- Embedding of DownloadJob.mark_active: status Active, percent 0,
title overwritten only when the argument is truthy (nonempty). -/
def DownloadJob.mark_active (j : DownloadJob) (title : String) : DownloadJob :=
  { j with status := .active, current_percent := 0,
           current_title := if title = "" then j.current_title else title }

/-- Embedding of DownloadJob.mark_complete. -/
def DownloadJob.mark_complete (j : DownloadJob) (output_path : String) : DownloadJob :=
  { j with status := .complete, output_path := some output_path,
           current_percent := 100, error_message := none }

/-- Embedding of DownloadJob.mark_failed. -/
def DownloadJob.mark_failed (j : DownloadJob) (error : String) : DownloadJob :=
  { j with status := .failed, error_message := some error }

/-- Embedding of DownloadJob.mark_cancelled. -/
def DownloadJob.mark_cancelled (j : DownloadJob) : DownloadJob :=
  { j with status := .cancelled }

/-- Embedding of DownloadJob.update_progress: percent clamped into
[0,100], title overwritten only when truthy. -/
def DownloadJob.update_progress (j : DownloadJob) (percent : Int) (title : String) :
    DownloadJob :=
  { j with current_percent := max 0 (min 100 percent),
           current_title := if title = "" then j.current_title else title }

/-- Embedding of DownloadJob.increment_retry. -/
def DownloadJob.increment_retry (j : DownloadJob) : DownloadJob :=
  { j with retry_count := j.retry_count + 1, status := .pending,
           current_percent := 0, error_message := none }

/-! ### retry.py: pattern lists and the error classifier -/

/-- Embedding of RETRYABLE_PATTERNS of batch/retry.py (a frozenset;
order is irrelevant to the any-tests below). -/
def RETRYABLE_PATTERNS : List String :=
  [ "timeout", "connection reset", "temporary failure", "429",
    "too many requests", "503", "service unavailable", "network",
    "timed out", "connection refused", "connection error", "ssl error",
    "read timeout", "write timeout" ]

/-- Embedding of PERMANENT_PATTERNS of batch/retry.py. -/
def PERMANENT_PATTERNS : List String :=
  [ "404", "not found", "video unavailable", "private video", "is private",
    "age restricted", "age-restricted", "copyright", "removed", "deleted",
    "blocked", "geo restricted", "members only", "available to members",
    "sign in", "login required", "invalid url", "unsupported url" ]

/-- Embedding of the Python expression `error.lower()`: characterwise
ASCII lowercasing, which agrees with str.lower on the ASCII pattern and
message strings the classifier deals with. -/
def lowerStr (s : String) : String :=
  String.mk (s.toList.map Char.toLower)

/-- Embedding of is_permanent_error of batch/retry.py: empty message is
not permanent; otherwise any PERMANENT pattern as a substring of the
lowercased message makes it permanent. -/
def is_permanent_error (error : String) : Bool :=
  if error = "" then false
  else PERMANENT_PATTERNS.any fun pat => strIn pat (lowerStr error)

/-- Embedding of is_retryable_error of batch/retry.py: empty message is
not retryable; a permanent message is not retryable; otherwise any
RETRYABLE pattern as a substring of the lowercased message. -/
def is_retryable_error (error : String) : Bool :=
  if error = "" then false
  else if is_permanent_error error then false
  else RETRYABLE_PATTERNS.any fun pat => strIn pat (lowerStr error)

/-! ### retry.py: RetryConfig -/

/-- Embedding of the RetryConfig dataclass of batch/retry.py. Delays are
rationals standing for the Python floats. -/
structure RetryConfig where
  max_attempts : Int
  base_delay : ℚ
  max_delay : ℚ
  jitter : Bool

/-- Embedding of RetryConfig post-init validation. -/
def RetryConfig.post_init (c : RetryConfig) : Except String RetryConfig :=
  if c.max_attempts < 1 then
    .error ("max_attempts must be >= 1, got " ++ toString c.max_attempts)
  else if c.max_attempts > 10 then
    .error ("max_attempts must be <= 10, got " ++ toString c.max_attempts)
  else if c.base_delay < 0 then
    .error "base_delay must be >= 0"
  else if c.max_delay < c.base_delay then
    .error "max_delay must be >= base_delay"
  else .ok c

/-- The proposition that a RetryConfig passes its post-init validation. -/
def RetryConfig.wf (c : RetryConfig) : Prop :=
  1 ≤ c.max_attempts ∧ c.max_attempts ≤ 10 ∧ 0 ≤ c.base_delay ∧
    c.base_delay ≤ c.max_delay

instance (c : RetryConfig) : Decidable c.wf := by
  unfold RetryConfig.wf; infer_instance

/-- Embedding of RetryConfig.delay_for_attempt. The jitter summand
`random.uniform(0, 1)` is made explicit as the parameter u, the value
drawn from [0,1); with jitter disabled u is ignored. -/
def RetryConfig.delay_for_attempt (c : RetryConfig) (attempt : Int) (u : ℚ) : ℚ :=
  let a : Int := if attempt < 0 then 0 else attempt
  let delay : ℚ := min (c.base_delay * 2 ^ a.toNat) c.max_delay
  if c.jitter then delay + u else delay

/-- Embedding of RetryConfig.should_retry. -/
def RetryConfig.should_retry (c : RetryConfig) (attempt : Int) : Bool :=
  attempt < c.max_attempts - 1

/-! ### download/batch.py: the per-job pipeline

The external download and transcode collaborators are opaque in the
source (yt-dlp and ffmpeg subprocesses); here they appear as an oracle
`fetch : Nat → DownloadOutcome` giving, for the n-th invocation of the
download operation overall, the joint outcome of the download call and
of the subsequent conversion attempt. The global shutdown flag of
executor.py is a constant Bool parameter: the claims below concern runs
in which the flag is not changed while the batch executes. -/

/-- Outcome of one invocation of the download collaborator together
with the conversion step that follows it in _download_single:
failure is `result.success == False` with `result.error` (None and the
empty string coincide under the `or` fallback, so a plain String
suffices); temp_missing is `result.temp_path` absent; fetched carries
`result.title` plus the conversion result (output path, or the message
of the exception _convert_audio caught). -/
inductive DownloadOutcome
  | failure (error : String)
  | temp_missing
  | fetched (title : String) (convert : Except String String)
deriving Repr

/-- Embedding of BatchDownloader._download_single: returns the updated
job, the Bool the method returns, and the updated count of download
invocations. Progress-queue emissions are pure side channels and are
not modelled. -/
def download_single (shutdown : Bool) (fetch : Nat → DownloadOutcome)
    (j : DownloadJob) (calls : Nat) : DownloadJob × Bool × Nat :=
  if shutdown then (j.mark_cancelled, false, calls)
  else
    let j1 := j.mark_active ""
    match fetch calls with
    | .failure e =>
        (j1.mark_failed (if e = "" then "Download failed" else e), false, calls + 1)
    | .temp_missing =>
        (j1.mark_failed "Temporary file not found", false, calls + 1)
    | .fetched title conv =>
        let j2 := { j1 with current_title :=
                      if title = "" then j1.current_title else title }
        if shutdown then (j2.mark_cancelled, false, calls + 1)
        else
          match conv with
          | .error e =>
              (j2.mark_failed ("Conversion failed: " ++ e), false, calls + 1)
          | .ok path => (j2.mark_complete path, true, calls + 1)

/-- Embedding of the attempt loop of BatchDownloader._process_job_with_retry.
The recursion is over the number of loop iterations left out of
`range(max_attempts)`; attempt is the current index. The backoff sleep
changes no modelled state and is omitted. -/
def processLoop (shutdown : Bool) (cfg : RetryConfig) (fetch : Nat → DownloadOutcome) :
    DownloadJob → Nat → Nat → Nat → DownloadJob × JobStatus × Nat
  | j, calls, _, 0 => (j, .failed, calls)
  | j, calls, attempt, remaining + 1 =>
    if shutdown then (j.mark_cancelled, .cancelled, calls)
    else
      match download_single shutdown fetch j calls with
      | (j1, true, calls1) => (j1, .complete, calls1)
      | (j1, false, calls1) =>
        let error := j1.error_message.getD ""
        if is_permanent_error error then (j1, .failed, calls1)
        else if !(is_retryable_error error) then (j1, .failed, calls1)
        else if !(cfg.should_retry (attempt : Int)) then (j1, .failed, calls1)
        else processLoop shutdown cfg fetch j1.increment_retry calls1 (attempt + 1) remaining

/-- Embedding of BatchDownloader._process_job_with_retry: run the
attempt loop from attempt 0 with max_attempts iterations available;
when the loop falls through, the method returns FAILED. -/
def process_job_with_retry (shutdown : Bool) (cfg : RetryConfig)
    (fetch : Nat → DownloadOutcome) (j : DownloadJob) : DownloadJob × JobStatus × Nat :=
  processLoop shutdown cfg fetch j 0 0 cfg.max_attempts.toNat

/-! ### download/batch.py: BatchDownloader.run and request.py: BatchResult -/

/-- The three aggregate counters of BatchRequest that run increments. -/
structure Counters where
  completed : Nat
  failed : Nat
  cancelled : Nat
deriving DecidableEq, Repr

/-- Embedding of the status classification in the completion loop of
BatchDownloader.run: COMPLETE increments completed, CANCELLED increments
cancelled, anything else increments failed. -/
def Counters.bump (c : Counters) (s : JobStatus) : Counters :=
  match s with
  | .complete => { c with completed := c.completed + 1 }
  | .cancelled => { c with cancelled := c.cancelled + 1 }
  | _ => { c with failed := c.failed + 1 }

/-- Embedding of WorkerPool.submit_job as seen by run: returns none
immediately when shutdown is requested, without invoking the job body;
otherwise the job body runs, yielding the updated job, the returned
status and the number of download invocations it made. -/
def submit_job (shutdown : Bool)
    (process : DownloadJob → DownloadJob × JobStatus × Nat)
    (j : DownloadJob) : Option (DownloadJob × JobStatus × Nat) :=
  if shutdown then none else some (process j)

/-- Sequentialisation of the submit/poll/count/resubmit loop of
BatchDownloader.run: each submitted job body runs to completion and its
status is folded into the counters, whereupon the next job is
submitted; the thread-pool interleavings only permute completion order,
which no modelled quantity depends on. Jobs whose submission returned
none (shutdown) are left untouched and counted nowhere, exactly as in
the source, where job_index still advances past them. Returns the final
job records, the counters, and the total number of download
invocations. -/
def runJobs (shutdown : Bool)
    (process : DownloadJob → DownloadJob × JobStatus × Nat) :
    List DownloadJob → List DownloadJob × Counters × Nat
  | [] => ([], ⟨0, 0, 0⟩, 0)
  | j :: rest =>
    match submit_job shutdown process j with
    | none =>
        let (rest1, c, n) := runJobs shutdown process rest
        (j :: rest1, c, n)
    | some (j1, s, calls) =>
        let (rest1, c, n) := runJobs shutdown process rest
        (j1 :: rest1, c.bump s, calls + n)

/-- Embedding of the BatchResult dataclass of batch/request.py. -/
structure BatchResult where
  total : Nat
  successful : Nat
  failed : Nat
  skipped_duplicates : Nat
  successful_files : List String
  failed_jobs : List DownloadJob
deriving DecidableEq, Repr

/-- Embedding of BatchResult.from_request: collect output paths of
COMPLETE jobs that have one, and FAILED jobs, from the final job list.
A non-None Python Path is always truthy, so the output-path test is
Option.isSome. -/
def BatchResult.from_request (jobs : List DownloadJob) : BatchResult :=
  let files := jobs.filterMap fun j =>
    if j.status = .complete then j.output_path else none
  let failedJobs := jobs.filter fun j => j.status = .failed
  { total := jobs.length, successful := files.length,
    failed := failedJobs.length, skipped_duplicates := 0,
    successful_files := files, failed_jobs := failedJobs }

/-- Embedding of BatchDownloader.run: empty batch short-circuits to an
empty result; otherwise the sequentialised submit/count loop runs and
the result is built from the final job records. Also returns the final
job list, the counters and the total download-invocation count, which
the source keeps in the request and in the pool. -/
def BatchDownloader.run (shutdown : Bool)
    (process : DownloadJob → DownloadJob × JobStatus × Nat)
    (jobs : List DownloadJob) : BatchResult × List DownloadJob × Counters × Nat :=
  if jobs.isEmpty then
    ({ total := 0, successful := 0, failed := 0, skipped_duplicates := 0,
       successful_files := [], failed_jobs := [] }, jobs, ⟨0, 0, 0⟩, 0)
  else
    let (jobs1, c, n) := runJobs shutdown process jobs
    (BatchResult.from_request jobs1, jobs1, c, n)

/-! ### request.py: BatchRequest validation and download_batch -/

/-- Embedding of BatchRequest post-init validation of batch/request.py. -/
def BatchRequest.validate (max_workers max_retries : Int) : Except String Unit :=
  if max_workers < 1 then
    .error ("max_workers must be >= 1, got " ++ toString max_workers)
  else if max_workers > 16 then
    .error ("max_workers must be <= 16, got " ++ toString max_workers)
  else if max_retries < 0 then
    .error ("max_retries must be >= 0, got " ++ toString max_retries)
  else if max_retries > 10 then
    .error ("max_retries must be <= 10, got " ++ toString max_retries)
  else .ok ()

/-- Embedding of the download_batch convenience function of
download/batch.py up to and including every construction-time
validation, in source order: BatchRequest construction validates
max_workers/max_retries, add_job validates each URL, then
RetryConfig(max_attempts = max_retries + 1) validates, and only then
does downloader.run execute. The run stage is abstracted as the
continuation `run`, so an error requires that no job body was entered. -/
def download_batch (urls : List String) (output_dir audio_format : String)
    (max_workers max_retries : Int)
    (run : List DownloadJob → RetryConfig → BatchResult) :
    Except String BatchResult := do
  let _ ← BatchRequest.validate max_workers max_retries
  let jobs ← urls.mapM fun u => mkDownloadJob u output_dir audio_format
  let cfg ← RetryConfig.post_init
    { max_attempts := max_retries + 1, base_delay := 1, max_delay := 30,
      jitter := true }
  pure (run jobs cfg)

/-! ### executor.py: WorkerPool.wait_for_completion -/

/-- A resolved future as wait_for_completion sees it: the worker id the
pool recorded for it in the futures map, if any, and the outcome of
future.result, either a value or the exception the worker function
raised. The exception type is abstract. -/
structure FutureRes (ε α : Type) where
  worker_id : Option Int
  outcome : Except ε α
deriving Repr

/-- Embedding of the CompletionResult dataclass of batch/executor.py. -/
structure CompletionResult (ε α : Type) where
  results : List α
  errors : List (Option Int × ε)
deriving Repr

/-- One iteration of the wait_for_completion loop: the try/except
around future.result appends a successful result to results, and a
raised exception to errors paired with the worker id. -/
def completionStep {ε α : Type} (acc : CompletionResult ε α) (f : FutureRes ε α) :
    CompletionResult ε α :=
  match f.outcome with
  | .ok r => { acc with results := acc.results ++ [r] }
  | .error e => { acc with errors := acc.errors ++ [(f.worker_id, e)] }

/-- Embedding of WorkerPool.wait_for_completion: iterate over the
futures in completion order (the argument list stands for the order
as_completed yields them), folding each into the CompletionResult. The
callback and the worker-idle bookkeeping mutate only display state and
are not modelled. -/
def wait_for_completion {ε α : Type} (futures : List (FutureRes ε α)) :
    CompletionResult ε α :=
  futures.foldl completionStep { results := [], errors := [] }

/-! ### Helper lemmas -/

/-- Every permanent pattern is a nonempty string. -/
theorem perm_pattern_ne_nil : ∀ pat ∈ PERMANENT_PATTERNS, pat.toList ≠ [] := by
  decide

/-- A substring hit inside the lowercase of the empty string forces the
pattern itself to be empty. -/
theorem toList_nil_of_strIn_lower_empty (pat : String)
    (h : strIn pat (lowerStr "") = true) : pat.toList = [] := by
  have h1 : strIn pat (lowerStr "") = pat.toList.isEmpty := rfl
  rw [h1] at h
  exact List.isEmpty_iff.mp h

/-- Core precedence fact: a message containing a permanent pattern is
classified permanent and not retryable. -/
theorem permanent_of_pattern (msg pat : String)
    (hp : pat ∈ PERMANENT_PATTERNS) (hin : strIn pat (lowerStr msg) = true) :
    is_permanent_error msg = true ∧ is_retryable_error msg = false := by
  have hmsg : msg ≠ "" := by
    intro hcon
    subst hcon
    exact perm_pattern_ne_nil pat hp (toList_nil_of_strIn_lower_empty pat hin)
  have hperm : is_permanent_error msg = true := by
    unfold is_permanent_error
    rw [if_neg hmsg]
    exact List.any_eq_true.mpr ⟨pat, hp, hin⟩
  refine ⟨hperm, ?_⟩
  unfold is_retryable_error
  rw [if_neg hmsg, hperm]
  rfl

/-- With shutdown already requested, every submission returns none, so
the sequentialised run loop touches no job, bumps no counter and makes
no download invocation. -/
theorem runJobs_shutdown (process : DownloadJob → DownloadJob × JobStatus × Nat)
    (jobs : List DownloadJob) :
    runJobs true process jobs = (jobs, ⟨0, 0, 0⟩, 0) := by
  induction jobs with
  | nil => rfl
  | cons j rest ih => simp [runJobs, submit_job, ih]

/-! ### C2: permanent pattern list -/

/-- C2 counterexample: the spec lists the bare substring "unavailable"
as a permanent pattern, so it claims "Service unavailable" classifies
as Permanent; the code has only "video unavailable" in
PERMANENT_PATTERNS while "service unavailable" is in
RETRYABLE_PATTERNS, so the classifier makes it retryable, not
permanent. -/
theorem C2_counterexample :
    is_permanent_error "Service unavailable" = false ∧
    is_retryable_error "Service unavailable" = true := by
  exact ⟨by decide, by decide⟩

/-- C2 amended: for every message containing, case-insensitively, one
of the permanent substrings of the code (PERMANENT_PATTERNS, which has
"video unavailable", "private video" and "is private" in place of the
bare "unavailable"/"private" of the spec), is_permanent_error is true
and is_retryable_error is false. -/
theorem C2_permanent_patterns (msg pat : String)
    (hp : pat ∈ PERMANENT_PATTERNS) (hin : strIn pat (lowerStr msg) = true) :
    is_permanent_error msg = true ∧ is_retryable_error msg = false :=
  permanent_of_pattern msg pat hp hin

/-- C2 witness: the amended theorem applied to the message
"Video unavailable" and the pattern "video unavailable". -/
theorem C2_witness :
    ("video unavailable" ∈ PERMANENT_PATTERNS ∧
      strIn "video unavailable" (lowerStr "Video unavailable") = true) ∧
    is_permanent_error "Video unavailable" = true ∧
    is_retryable_error "Video unavailable" = false :=
  ⟨⟨by decide, by decide⟩,
    C2_permanent_patterns "Video unavailable" "video unavailable"
      (by decide) (by decide)⟩

/-! ### C4: permanent-before-retryable precedence -/

/-- C4: a message containing, case-insensitively, both a permanent
pattern and a retryable pattern of the code is classified permanent:
is_permanent_error is true and is_retryable_error is false. -/
theorem C4_permanent_precedence (msg ppat rpat : String)
    (hp : ppat ∈ PERMANENT_PATTERNS) (_hr : rpat ∈ RETRYABLE_PATTERNS)
    (hpin : strIn ppat (lowerStr msg) = true)
    (_hrin : strIn rpat (lowerStr msg) = true) :
    is_permanent_error msg = true ∧ is_retryable_error msg = false :=
  permanent_of_pattern msg ppat hp hpin

/-- C4 witness: the precedence theorem applied to the message of the
spec, which contains both "video unavailable" and "timeout". -/
theorem C4_witness :
    ("video unavailable" ∈ PERMANENT_PATTERNS ∧
      "timeout" ∈ RETRYABLE_PATTERNS ∧
      strIn "video unavailable"
        (lowerStr "timeout while checking video unavailable status") = true ∧
      strIn "timeout"
        (lowerStr "timeout while checking video unavailable status") = true) ∧
    is_permanent_error "timeout while checking video unavailable status" = true ∧
    is_retryable_error "timeout while checking video unavailable status" = false :=
  ⟨⟨by decide, by decide, by decide, by decide⟩,
    C4_permanent_precedence "timeout while checking video unavailable status"
      "video unavailable" "timeout" (by decide) (by decide) (by decide) (by decide)⟩

/-! ### C3: percent invariant of the job operations -/

/-- A pending job used as the C3 counterexample input. -/
def c3_job : DownloadJob :=
  { url := "https://example.com/a", output_dir := "out", format := "mp3",
    status := .pending, retry_count := 0, error_message := none,
    output_path := none, current_percent := 0, current_title := "" }

/-- C3 counterexample: update_progress with percent 100 stores 100 on a
job that is not Complete, so mark_complete is not the only operation
that ever sets the stored percent to 100. -/
theorem C3_counterexample :
    (c3_job.update_progress 100 "").current_percent = 100 ∧
    (c3_job.update_progress 100 "").status ≠ JobStatus.complete := by
  exact ⟨by decide, by decide⟩

/-- C3 amended: percent is reset to 0 on every transition into Active
and by increment_retry; among the transition operations only
mark_complete sets it to 100 (mark_failed and mark_cancelled leave it
unchanged); but update_progress stores 100 exactly when its argument is
at least 100, without any transition into Complete. -/
theorem C3_percent_invariant (j : DownloadJob) (title path e : String) (p : Int) :
    (j.mark_active title).current_percent = 0 ∧
    (j.mark_complete path).current_percent = 100 ∧
    (j.mark_failed e).current_percent = j.current_percent ∧
    j.mark_cancelled.current_percent = j.current_percent ∧
    j.increment_retry.current_percent = 0 ∧
    ((j.update_progress p title).current_percent = 100 ↔ 100 ≤ p) ∧
    (j.update_progress p title).status = j.status := by
  refine ⟨rfl, rfl, rfl, rfl, rfl, ?_, rfl⟩
  simp only [DownloadJob.update_progress]
  omega

/-! ### C6: mark_failed then increment_retry -/

/-- C6: from any job state, mark_failed followed by increment_retry
yields status Pending, retry_count one higher, percent 0 and no error
message. -/
theorem C6_failed_then_retry (j : DownloadJob) (e : String) :
    ((j.mark_failed e).increment_retry).status = JobStatus.pending ∧
    ((j.mark_failed e).increment_retry).retry_count = j.retry_count + 1 ∧
    ((j.mark_failed e).increment_retry).current_percent = 0 ∧
    ((j.mark_failed e).increment_retry).error_message = none :=
  ⟨rfl, rfl, rfl, rfl⟩

/-! ### C7: backoff formula, cap and monotonicity -/

/-- C7: with jitter disabled, delay_for_attempt equals
min(base_delay * 2 ^ a, max_delay) with negative attempts clamped to 0,
never exceeds max_delay, and is monotone non-decreasing in the attempt
number. -/
theorem C7_delay_formula (c : RetryConfig) (hwf : c.wf) (hj : c.jitter = false) :
    (∀ (a : Int) (u : ℚ),
        c.delay_for_attempt a u =
          min (c.base_delay * 2 ^ (max a 0).toNat) c.max_delay) ∧
    (∀ (a : Int) (u : ℚ), c.delay_for_attempt a u ≤ c.max_delay) ∧
    (∀ (a b : Int) (u v : ℚ), a ≤ b →
        c.delay_for_attempt a u ≤ c.delay_for_attempt b v) := by
  obtain ⟨-, -, hb, -⟩ := hwf
  have hclamp : ∀ a : Int, (if a < 0 then (0 : Int) else a) = max a 0 := by
    intro a; split <;> omega
  refine ⟨?_, ?_, ?_⟩
  · intro a u
    simp only [RetryConfig.delay_for_attempt, hj, if_false, Bool.false_eq_true,
      hclamp]
  · intro a u
    simp only [RetryConfig.delay_for_attempt, hj, if_false, Bool.false_eq_true]
    exact min_le_right _ _
  · intro a b u v hab
    simp only [RetryConfig.delay_for_attempt, hj, if_false, Bool.false_eq_true]
    have hxy : (if a < 0 then (0 : Int) else a).toNat ≤
        (if b < 0 then (0 : Int) else b).toNat := by
      split <;> split <;> omega
    refine min_le_min ?_ le_rfl
    exact mul_le_mul_of_nonneg_left (pow_le_pow_right₀ one_le_two hxy) hb

/-- A valid jitter-free config used as the C7 witness input. -/
def c7_cfg : RetryConfig :=
  { max_attempts := 3, base_delay := 1, max_delay := 30, jitter := false }

/-- C7 witness: the delay theorem applied to a concrete valid config at
attempt 2. -/
theorem C7_witness :
    c7_cfg.wf ∧ c7_cfg.jitter = false ∧
    c7_cfg.delay_for_attempt 2 0 ≤ c7_cfg.max_delay :=
  ⟨by decide, rfl, (C7_delay_formula c7_cfg (by decide) rfl).2.1 2 0⟩

/-! ### C8: should_retry characterisation and count -/

/-- C8: should_retry attempt holds exactly when attempt is below
max_attempts - 1, and over the nonnegative attempts (all below 10 by
validity) it holds for exactly max_attempts - 1 values, namely
0 .. max_attempts - 2. -/
theorem C8_should_retry_iff (c : RetryConfig) (hwf : c.wf) :
    (∀ a : Int, c.should_retry a = true ↔ a < c.max_attempts - 1) ∧
    ((List.range 10).filter fun n : Nat => c.should_retry (n : Int)).length
      = (c.max_attempts - 1).toNat := by
  obtain ⟨ma, b, md, jt⟩ := c
  obtain ⟨h1, h2, -, -⟩ := hwf
  constructor
  · intro a
    simp [RetryConfig.should_retry]
  · simp only [RetryConfig.should_retry] at h1 h2 ⊢
    interval_cases ma <;> rfl

/-- A valid config used as the C8 witness input. -/
def c8_cfg : RetryConfig :=
  { max_attempts := 3, base_delay := 1, max_delay := 30, jitter := true }

/-- C8 witness: the characterisation applied to a concrete config with
max_attempts 3, whose retryable attempt count is 2. -/
theorem C8_witness :
    c8_cfg.wf ∧
    ((List.range 10).filter fun n : Nat => c8_cfg.should_retry (n : Int)).length
      = (c8_cfg.max_attempts - 1).toNat :=
  ⟨by decide, (C8_should_retry_iff c8_cfg (by decide)).2⟩

/-! ### C9: wait_for_completion partitions outcomes -/

/-- The successful outcomes among a list of resolved futures, in
completion order. -/
def okOutcomes {ε α : Type} (futures : List (FutureRes ε α)) : List α :=
  futures.filterMap fun f =>
    match f.outcome with
    | .ok r => some r
    | .error _ => none

/-- The captured (worker_id, exception) pairs among a list of resolved
futures, in completion order. -/
def errOutcomes {ε α : Type} (futures : List (FutureRes ε α)) :
    List (Option Int × ε) :=
  futures.filterMap fun f =>
    match f.outcome with
    | .error e => some (f.worker_id, e)
    | .ok _ => none

/-- The completion fold extends any accumulator by exactly the
partitioned outcomes. -/
theorem foldl_completionStep {ε α : Type} (fs : List (FutureRes ε α))
    (acc : CompletionResult ε α) :
    fs.foldl completionStep acc =
      { results := acc.results ++ okOutcomes fs,
        errors := acc.errors ++ errOutcomes fs } := by
  induction fs generalizing acc with
  | nil => simp [okOutcomes, errOutcomes]
  | cons f rest ih =>
    cases hout : f.outcome with
    | ok r =>
      simp [List.foldl_cons, completionStep, hout, ih, okOutcomes, errOutcomes,
        List.filterMap_cons]
    | error e =>
      simp [List.foldl_cons, completionStep, hout, ih, okOutcomes, errOutcomes,
        List.filterMap_cons]

/-- Every future contributes to exactly one of the two partitions. -/
theorem okOutcomes_errOutcomes_length {ε α : Type}
    (fs : List (FutureRes ε α)) :
    (okOutcomes fs).length + (errOutcomes fs).length = fs.length := by
  induction fs with
  | nil => rfl
  | cons f rest ih =>
    simp only [okOutcomes, errOutcomes] at ih ⊢
    cases hout : f.outcome <;>
      simp only [List.filterMap_cons, hout, List.length_cons] <;>
      omega

/-- C9: wait_for_completion consumes every handle and partitions the
outcomes: its results list is exactly the successful results in
completion order, its errors list is exactly the (worker_id, exception)
pairs of the handles whose worker function raised, no exception escapes
(the function is total into CompletionResult), and the two parts
jointly account for every handle. -/
theorem C9_wait_partitions {ε α : Type} (futures : List (FutureRes ε α)) :
    (wait_for_completion futures).results = okOutcomes futures ∧
    (wait_for_completion futures).errors = errOutcomes futures ∧
    (wait_for_completion futures).results.length +
      (wait_for_completion futures).errors.length = futures.length := by
  have h := foldl_completionStep futures
    ({ results := [], errors := [] } : CompletionResult ε α)
  unfold wait_for_completion
  rw [h]
  simp only [List.nil_append]
  exact ⟨trivial, trivial, okOutcomes_errOutcomes_length futures⟩

/-! ### C10: download_batch with max_retries = 10 -/

/-- C10: max_retries = 10 passes BatchRequest validation, yet
download_batch constructs RetryConfig(max_attempts = 11), whose
post-init validation rejects it, so the call errors out for every
possible run continuation, before any job body executes. -/
theorem C10_max_retries_boundary :
    BatchRequest.validate 4 10 = .ok () ∧
    ∀ run, download_batch ["https://youtube.com/watch?v=a"] "out" "mp3" 4 10 run
        = .error "max_attempts must be <= 10, got 11" := by
  exact ⟨rfl, fun run => rfl⟩

/-! ### C1: shutdown requested before any dispatch -/

/-- A pending job used in the C1 scenario. -/
def c1_job : DownloadJob :=
  { url := "https://example.com/v", output_dir := "out", format := "mp3",
    status := .pending, retry_count := 0, error_message := none,
    output_path := none, current_percent := 0, current_title := "" }

/-- A job body stub for the C1 scenario: were it ever invoked, it would
complete the job and register one fetch call. -/
def c1_process : DownloadJob → DownloadJob × JobStatus × Nat :=
  fun j => (j.mark_complete "out/a.mp3", .complete, 1)

/-- C1 counterexample: with shutdown requested before any dispatch, a
batch of one pending job finishes with the job still Pending, not
Cancelled, and zero fetch invocations: the claim that all jobs end as
Cancelled fails. -/
theorem C1_counterexample :
    (BatchDownloader.run true c1_process [c1_job]).2.1.map DownloadJob.status
      = [JobStatus.pending] ∧
    JobStatus.pending ≠ JobStatus.cancelled ∧
    (BatchDownloader.run true c1_process [c1_job]).2.2.2 = 0 := by
  refine ⟨rfl, by decide, rfl⟩

/-- C1 amended: if shutdown is requested before any dispatch then, for
every batch of pending jobs and every job body, run returns with every
job unchanged and still Pending (none Cancelled), zero fetch
invocations, all counters zero, and a result with no successes and no
failures. -/
theorem C1_shutdown_before_dispatch
    (process : DownloadJob → DownloadJob × JobStatus × Nat)
    (jobs : List DownloadJob)
    (hp : ∀ j ∈ jobs, j.status = JobStatus.pending) :
    (BatchDownloader.run true process jobs).2.1 = jobs ∧
    (∀ j ∈ (BatchDownloader.run true process jobs).2.1,
        j.status = JobStatus.pending) ∧
    (BatchDownloader.run true process jobs).2.2.2 = 0 ∧
    (BatchDownloader.run true process jobs).2.2.1 = ⟨0, 0, 0⟩ ∧
    (BatchDownloader.run true process jobs).1.successful = 0 ∧
    (BatchDownloader.run true process jobs).1.failed = 0 := by
  have hfiles : (jobs.filterMap fun j =>
      if j.status = JobStatus.complete then j.output_path else none) = [] := by
    refine List.filterMap_eq_nil_iff.mpr fun j hj => ?_
    rw [hp j hj]
    rfl
  have hfailed : (jobs.filter fun j => j.status = JobStatus.failed) = [] := by
    refine List.filter_eq_nil_iff.mpr fun j hj => ?_
    rw [hp j hj]
    decide
  cases jobs with
  | nil =>
    refine ⟨rfl, ?_, rfl, rfl, rfl, rfl⟩
    intro j hj
    simp [BatchDownloader.run] at hj
  | cons j0 rest =>
    have hres : BatchDownloader.run true process (j0 :: rest)
        = (BatchResult.from_request (j0 :: rest), j0 :: rest, ⟨0, 0, 0⟩, 0) := by
      simp [BatchDownloader.run, runJobs_shutdown]
    rw [hres]
    refine ⟨rfl, hp, rfl, rfl, ?_, ?_⟩
    · simp [BatchResult.from_request, hfiles]
    · simp [BatchResult.from_request, hfailed]

/-- C1 witness: the amended theorem applied to the one-job batch. -/
theorem C1_witness :
    (∀ j ∈ [c1_job], j.status = JobStatus.pending) ∧
    (BatchDownloader.run true c1_process [c1_job]).2.2.2 = 0 ∧
    (BatchDownloader.run true c1_process [c1_job]).2.1 = [c1_job] :=
  ⟨by decide,
    (C1_shutdown_before_dispatch c1_process [c1_job] (by decide)).2.2.1,
    (C1_shutdown_before_dispatch c1_process [c1_job] (by decide)).1⟩

/-! ### C5: two retryable failures then success under max_attempts 3 -/

/-- Embedding of the RetryConfig(max_attempts=3) of the C5 scenario,
with the default base_delay, max_delay and jitter of the dataclass. -/
def c5_cfg : RetryConfig :=
  { max_attempts := 3, base_delay := 1, max_delay := 30, jitter := true }

/-- C5: for every fetch oracle whose first two invocations fail with
"Connection timeout" and whose third succeeds, and every starting job,
_process_job_with_retry under RetryConfig(max_attempts=3) returns
COMPLETE with the job marked Complete after exactly 3 fetch
invocations. -/
theorem C5_retry_then_complete (fetch : Nat → DownloadOutcome)
    (j : DownloadJob) (t p : String)
    (h0 : fetch 0 = .failure "Connection timeout")
    (h1 : fetch 1 = .failure "Connection timeout")
    (h2 : fetch 2 = .fetched t (.ok p)) :
    (process_job_with_retry false c5_cfg fetch j).2.1 = JobStatus.complete ∧
    (process_job_with_retry false c5_cfg fetch j).1.status = JobStatus.complete ∧
    (process_job_with_retry false c5_cfg fetch j).2.2 = 3 := by
  have hperm : is_permanent_error "Connection timeout" = false := by decide
  have hretr : is_retryable_error "Connection timeout" = true := by decide
  have hne : ("Connection timeout" : String) ≠ "" := by decide
  have hsr0 : c5_cfg.should_retry 0 = true := by decide
  have hsr1 : c5_cfg.should_retry 1 = true := by decide
  have hma : c5_cfg.max_attempts.toNat = 3 := rfl
  unfold process_job_with_retry
  rw [hma]
  simp only [processLoop, download_single, h0, h1, h2, hne, hperm, hretr,
    hsr0, hsr1, if_false, if_neg, Bool.false_eq_true, not_false_eq_true,
    DownloadJob.mark_failed, DownloadJob.mark_active, DownloadJob.increment_retry,
    DownloadJob.mark_complete, Option.getD, Bool.not_true, Bool.not_false,
    ite_false, ite_true, Nat.cast_ofNat, Nat.cast_zero, Nat.cast_one]
  norm_num [c5_cfg, RetryConfig.should_retry]

/-- A concrete fetch stub failing twice with "Connection timeout" and
then succeeding, used as the C5 witness input. -/
def c5_fetch : Nat → DownloadOutcome :=
  fun n => if n < 2 then .failure "Connection timeout"
           else .fetched "Title" (.ok "out/title.mp3")

/-- A pending job used as the C5 witness input. -/
def c5_job : DownloadJob :=
  { url := "https://example.com/w", output_dir := "out", format := "mp3",
    status := .pending, retry_count := 0, error_message := none,
    output_path := none, current_percent := 0, current_title := "" }

/-- C5 witness: the retry theorem applied to the concrete stub. -/
theorem C5_witness :
    c5_fetch 0 = .failure "Connection timeout" ∧
    c5_fetch 1 = .failure "Connection timeout" ∧
    c5_fetch 2 = .fetched "Title" (.ok "out/title.mp3") ∧
    (process_job_with_retry false c5_cfg c5_fetch c5_job).2.2 = 3 :=
  ⟨rfl, rfl, rfl,
    (C5_retry_then_complete c5_fetch c5_job "Title" "out/title.mp3"
      rfl rfl rfl).2.2⟩

end YtAudio
